import Mathlib

/-!
Verification of the gauge-driven audio synchronization and mixing engine of
the love-pods repository. The definitions below are a shallow embedding of
the TypeScript source: `src/src/App.tsx` is the current variant, and
`src/unnamed/part_000` is the older variant of the same component; where the
two differ the embedding carries both (the older one under a `legacy` name).
Audio-clock instants and gain values are modelled as rationals.
-/

namespace LovePods

/-- The `CONFIG` constant object (src/src/App.tsx lines 15-24). -/
structure Config where
  loopEndTime : ℚ
  vocalStartTime : ℚ
  gaugeSpeed : ℚ
  vocalGaugeSpeed : ℚ
  decayRate : ℚ
  fadeOutTime : ℚ
deriving DecidableEq

def CONFIG : Config :=
  { loopEndTime := 7
    vocalStartTime := 17
    gaugeSpeed := 0.15
    vocalGaugeSpeed := 0.15
    decayRate := 0.5
    fadeOutTime := 10 }

/-! ## Gauge engine (gameLoop input logic, src/src/App.tsx lines 419-427) -/

/-- The two clamping statements `if (gauge < 0) gauge = 0; if (gauge > 100) gauge = 100`. -/
def clampGauge (g : ℚ) : ℚ :=
  if g < 0 then 0 else if g > 100 then 100 else g

/-- One tick of the gauge update: charge by `vocalGaugeSpeed` (stage MixActive,
i.e. `vocalActive`) or `gaugeSpeed` while leaning, decay by `decayRate`
otherwise, then clamp to [0,100]. -/
def gaugeTick (vocalActive isLeaning : Bool) (g : ℚ) : ℚ :=
  let currentGaugeSpeed := if vocalActive then CONFIG.vocalGaugeSpeed else CONFIG.gaugeSpeed
  clampGauge (if isLeaning then g + currentGaugeSpeed else g - CONFIG.decayRate)

/-- Run the gauge over a sequence of ticks; each input is a pair
`(vocalActive, isLeaning)`. -/
def runGauge (inputs : List (Bool × Bool)) (g0 : ℚ) : ℚ :=
  inputs.foldl (fun g p => gaugeTick p.1 p.2 g) g0

/-- Gauge after `n` ticks from 0 with the input held active and the stage not
yet MixActive (the Syncing charge scenario). -/
def gaugeAfterActive : ℕ → ℚ
  | 0 => 0
  | n + 1 => gaugeTick false true (gaugeAfterActive n)

/-! ## Mixer band functions (gameLoop MixActive branch, src/src/App.tsx lines 445-453) -/

/-- The nested-if computation of `(bassVol, drumVol, vocalVol)` from the gauge. -/
def stemTargets (gauge : ℚ) : ℚ × ℚ × ℚ :=
  if gauge ≤ 20 then (gauge / 20, 0, 0)
  else if gauge ≤ 40 then (1, (gauge - 20) / 20, 0)
  else (1, 1, (gauge - 40) / 60)

def bassVol (g : ℚ) : ℚ := (stemTargets g).1

def drumVol (g : ℚ) : ℚ := (stemTargets g).2.1

def vocalVol (g : ℚ) : ℚ := (stemTargets g).2.2

def clamp01 (x : ℚ) : ℚ := if x < 0 then 0 else if x > 1 then 1 else x

/-- Band function for bass as the spec words it: `clamp(gauge/20, 0, 1)`. -/
def specBass (g : ℚ) : ℚ := clamp01 (g / 20)

/-- Band function for drums as the spec words it: `clamp((gauge-20)/20, 0, 1)`. -/
def specDrums (g : ℚ) : ℚ := clamp01 ((g - 20) / 20)

/-- Band function for vocals as the spec words it: `clamp((gauge-40)/60, 0, 1)`. -/
def specVocals (g : ℚ) : ℚ := clamp01 ((g - 40) / 60)

/-! ## Gain-automation commands issued by the tick loop
(gameLoop audio-control section, src/src/App.tsx lines 432-461) -/

/-- The five gain channels of the audio graph. -/
inductive Channel
  | clock
  | other
  | bass
  | drums
  | vocals
deriving DecidableEq

/-- A `gain.setTargetAtTime(target, now, timeConstant)` call: exponentially
smoothed approach to `target` with the given time constant. -/
structure TargetCmd where
  channel : Channel
  target : ℚ
  timeConstant : ℚ
deriving DecidableEq

/-- The `setTargetAtTime` commands one gameLoop tick issues, as a function of
`isLooping`, `vocalActive` and the (already updated) gauge
(src/src/App.tsx lines 432-461).  Note the MixActive branch drives the clock
and the three stem channels only. -/
def gameLoopGainCmds (isLooping vocalActive : Bool) (gauge : ℚ) : List TargetCmd :=
  if isLooping then
    [⟨Channel.clock, gauge / 100, 0.05⟩]
  else if !vocalActive then
    [⟨Channel.clock, 1, 0.05⟩]
  else
    let t := stemTargets gauge
    [⟨Channel.clock, 1, 0.05⟩, ⟨Channel.bass, t.1, 0.05⟩,
     ⟨Channel.drums, t.2.1, 0.05⟩, ⟨Channel.vocals, t.2.2, 0.05⟩]

/-- The same tick commands in the older variant
(src/unnamed/part_000 lines 503-563), whose MixActive branch also drives the
accompaniment (`gainOther`) toward 1.0 and guards the bands with strict lower
bounds. -/
def legacyGameLoopGainCmds (isLooping vocalActive : Bool) (gauge : ℚ) : List TargetCmd :=
  if isLooping then
    [⟨Channel.clock, gauge / 100, 0.05⟩]
  else if !vocalActive then
    [⟨Channel.clock, 1, 0.05⟩]
  else
    let bassV : ℚ := if 0 < gauge ∧ gauge ≤ 20 then gauge / 20 else if 20 < gauge then 1 else 0
    let drumsV : ℚ := if 20 < gauge ∧ gauge ≤ 40 then (gauge - 20) / 20 else if 40 < gauge then 1 else 0
    let vocalsV : ℚ := if 40 < gauge ∧ gauge ≤ 100 then (gauge - 40) / 60 else 0
    [⟨Channel.clock, 1, 0.05⟩, ⟨Channel.other, 1, 0.05⟩,
     ⟨Channel.bass, bassV, 0.05⟩, ⟨Channel.drums, drumsV, 0.05⟩,
     ⟨Channel.vocals, vocalsV, 0.05⟩]

/-! ## Timeline scheduler (releaseLoop, src/src/App.tsx lines 320-344) -/

/-- The instant `currentLoopEnd = startTime + (Math.floor(elapsed / loopEndTime) + 1) * loopEndTime`
(src/src/App.tsx line 335). -/
def currentLoopEnd (startTime now : ℚ) : ℚ :=
  startTime + ((⌊(now - startTime) / CONFIG.loopEndTime⌋ + 1 : ℤ) : ℚ) * CONFIG.loopEndTime

/-- The instant `musicStartTime = loopEndTime + CONFIG.vocalStartTime` (src/src/App.tsx line 341),
where `loopEndTime` there is the computed `currentLoopEnd` instant. -/
def musicStartTime (startTime now : ℚ) : ℚ :=
  currentLoopEnd startTime now + CONFIG.vocalStartTime

/-- The loop-release instant as the spec words it:
`anchor.startInstant + ceil((now - anchor.startInstant) / loopEndTime) * loopEndTime`. -/
def specLoopReleaseInstant (startInstant now : ℚ) : ℚ :=
  startInstant + ((⌈(now - startInstant) / CONFIG.loopEndTime⌉ : ℤ) : ℚ) * CONFIG.loopEndTime

/-! ## Deferred events and the session state mutated by them -/

/-- The two `setTimeout` callbacks in the source: the mix-activation callback
of `scheduleMusicAt17s` (src/src/App.tsx lines 312-317) and the reset callback
of `handleStop` (src/src/App.tsx lines 385-411). -/
inductive TimerAction
  | mixActivate
  | stopReset
deriving DecidableEq

/-- A pending `setTimeout`, keyed by its absolute fire instant. -/
structure Timer where
  fireAt : ℚ
  action : TimerAction
deriving DecidableEq

/-- The mutable per-session state: `stateRef.current` together with the
`stage`/`statusText`/`isReady` UI state (src/src/App.tsx lines 28-33, 77-83).
Stage numbering as in the source: 0 = Idle, 1 = Syncing, 2 = MixActive. -/
structure AppState where
  gauge : ℚ
  visualGauge : ℚ
  isLooping : Bool
  vocalActive : Bool
  stage : ℕ
  statusText : String
  isReady : Bool
deriving DecidableEq

/-- Effect of a fired timer callback on the session state, transcribed from
the two `setTimeout` bodies. -/
def applyTimerAction : TimerAction → AppState → AppState
  | TimerAction.mixActivate, s =>
      { s with vocalActive := true, stage := 2, statusText := "MUSIC ACTIVE", gauge := 0 }
  | TimerAction.stopReset, s =>
      { s with isLooping := true, vocalActive := false, gauge := 0, visualGauge := 0,
               isReady := false, stage := 0, statusText := "DISCONNECTED" }

/-- Insert a new timer into the pending queue, keeping it sorted by fire
instant (earlier timers fire first; ties fire in creation order). -/
def insertTimer (t : Timer) : List Timer → List Timer
  | [] => [t]
  | u :: us => if u.fireAt ≤ t.fireAt then u :: insertTimer t us else t :: u :: us

/-- Fire all pending timers in queue order. -/
def runTimers (s : AppState) : List Timer → AppState
  | [] => s
  | t :: ts => runTimers (applyTimerAction t.action s) ts

/-! ## scheduleMusicAt17s (src/src/App.tsx lines 281-318) -/

/-- Which of the four stem buffers of the selected song are decoded. -/
structure MusicBuffers where
  other : Bool
  bass : Bool
  drums : Bool
  vocals : Bool
deriving DecidableEq

/-- Everything `scheduleMusicAt17s` does to the audio graph and timer queue:
per-stem scheduled source start instants, the accompaniment
`setValueAtTime(1.0, musicStartAt)` call, the deferred mix-activation timer,
and the error message of the buffers-missing early return. -/
structure ScheduleResult where
  errorMessage : Option String
  otherStart : Option ℚ
  bassStart : Option ℚ
  drumsStart : Option ℚ
  vocalsStart : Option ℚ
  otherGainSet : Option (ℚ × ℚ)
  timer : Option Timer
deriving DecidableEq

/-- The helper `createSrc` (src/src/App.tsx lines 294-301): a source is created and
started at `musicStartAt` only when its buffer exists. -/
def createSrcStart (present : Bool) (musicStartAt : ℚ) : Option ℚ :=
  if present then some musicStartAt else none

/-- The guard `!currentMusic || !currentMusic.other` of the early-return error
branch (src/src/App.tsx line 288). -/
def musicNotReady : Option MusicBuffers → Prop
  | none => True
  | some m => m.other = false

instance : DecidablePred musicNotReady := by
  intro cm
  cases cm <;> simp [musicNotReady] <;> infer_instance

/-- The function `scheduleMusicAt17s` (src/src/App.tsx lines 281-318), with `now` the value
of `ctx.currentTime` at the call. -/
def scheduleMusicAt17s (currentMusic : Option MusicBuffers) (now musicStartAt : ℚ) :
    ScheduleResult :=
  match currentMusic with
  | none =>
      { errorMessage := some "Failed to load music", otherStart := none, bassStart := none,
        drumsStart := none, vocalsStart := none, otherGainSet := none, timer := none }
  | some m =>
      if !m.other then
        { errorMessage := some "Failed to load music", otherStart := none, bassStart := none,
          drumsStart := none, vocalsStart := none, otherGainSet := none, timer := none }
      else
        { errorMessage := none
          otherStart := createSrcStart m.other musicStartAt
          bassStart := createSrcStart m.bass musicStartAt
          drumsStart := createSrcStart m.drums musicStartAt
          vocalsStart := createSrcStart m.vocals musicStartAt
          otherGainSet := some (1, musicStartAt)
          timer := some ⟨now + max 0 (musicStartAt - now), TimerAction.mixActivate⟩ }

/-! ## Session-level transitions (releaseLoop, handleStop, gameLoop trigger) -/

/-- A session: app state plus the clock anchor (`audioRef.current.startTime`),
the pending timer queue, and the error banner. -/
structure Session where
  st : AppState
  startTime : ℚ
  timers : List Timer
  errorMessage : Option String
deriving DecidableEq

/-- The function `releaseLoop` (src/src/App.tsx lines 320-344): disable the loop flag, set
the status text, compute `musicStartTime` from the anchor and call
`scheduleMusicAt17s`, merging its effects into the session. -/
def releaseLoop (currentMusic : Option MusicBuffers) (now : ℚ) (sess : Session) : Session :=
  let r := scheduleMusicAt17s currentMusic now (musicStartTime sess.startTime now)
  { sess with
    st := { sess.st with isLooping := false, statusText := "SYNC COMPLETE..." }
    errorMessage := match r.errorMessage with
      | some e => some e
      | none => sess.errorMessage
    timers := match r.timer with
      | some t => insertTimer t sess.timers
      | none => sess.timers }

/-- The `handleStop` reset timer: `setTimeout(..., fade * 1000)`
(src/src/App.tsx lines 385-411). -/
def handleStopTimer (now : ℚ) : Timer :=
  ⟨now + CONFIG.fadeOutTime, TimerAction.stopReset⟩

/-- The function `handleStop` at the session level (src/src/App.tsx lines 369-412): it
schedules the deferred reset but leaves every already-pending timer in the
queue (the source stores no timeout id and never calls `clearTimeout`). -/
def handleStop (now : ℚ) (sess : Session) : Session :=
  { sess with timers := insertTimer (handleStopTimer now) sess.timers }

/-- One gameLoop tick at the session level (src/src/App.tsx lines 415-478):
gauge update followed by the loop-release trigger
`if (isLooping) { if (gauge >= 100) releaseLoop(); }`. -/
def gameLoopTick (currentMusic : Option MusicBuffers) (isLeaning : Bool) (now : ℚ)
    (sess : Session) : Session :=
  let g := gaugeTick sess.st.vocalActive isLeaning sess.st.gauge
  let sess1 : Session := { sess with st := { sess.st with gauge := g } }
  if sess1.st.isLooping = true ∧ 100 ≤ g then releaseLoop currentMusic now sess1 else sess1

/-- Iterate `gameLoopTick`. -/
def iterateTicks (currentMusic : Option MusicBuffers) (isLeaning : Bool) (now : ℚ) :
    ℕ → Session → Session
  | 0, s => s
  | n + 1, s => iterateTicks currentMusic isLeaning now n (gameLoopTick currentMusic isLeaning now s)

/-! ## handleStop gain ramps (src/src/App.tsx lines 376-383) -/

/-- A `setValueAtTime(startVal, startAt)` followed by
`linearRampToValueAtTime(endVal, endAt)`. -/
structure RampCmd where
  startAt : ℚ
  startVal : ℚ
  endAt : ℚ
  endVal : ℚ
deriving DecidableEq

/-- The fade-out ramp `handleStop` applies to one gain holding value `v`. -/
def fadeOutRamp (now v : ℚ) : RampCmd :=
  { startAt := now, startVal := v, endAt := now + CONFIG.fadeOutTime, endVal := 0 }

/-- The `forEach` over `[gainClock, gainOther, gainBass, gainDrums, gainVocals]`
in `handleStop`, given each gain's current value. -/
def handleStopRamps (now vClock vOther vBass vDrums vVocals : ℚ) : List RampCmd :=
  [fadeOutRamp now vClock, fadeOutRamp now vOther, fadeOutRamp now vBass,
   fadeOutRamp now vDrums, fadeOutRamp now vVocals]

/-- The gain value a linear ramp command yields at instant `t` of the ramp
interval. -/
def rampValue (c : RampCmd) (t : ℚ) : ℚ :=
  c.startVal + (t - c.startAt) * (c.endVal - c.startVal) / (c.endAt - c.startAt)

/-! ## Concrete scenario values -/

/-- A session in stage Syncing at the moment the gauge saturates: clock
anchored at 0, no pending timers. -/
def satSession : Session :=
  { st := { gauge := 100, visualGauge := 1, isLooping := true, vocalActive := false,
            stage := 1, statusText := "SYNC TIME (HOLD SPACE)", isReady := true }
    startTime := 0
    timers := []
    errorMessage := none }

/-- A fully decoded stem set. -/
def allBuffers : MusicBuffers := ⟨true, true, true, true⟩

/-- The session left behind by a loop release that failed on unloaded
buffers. -/
def c6Failed : Session := releaseLoop none 30 satSession

/-- The session right after the gauge saturated at instant 30 with the stems
loaded: releaseLoop has scheduled the mix activation at instant 52. -/
def c2Released : Session := releaseLoop (some allBuffers) 30 satSession

/-- Stop is pressed at instant 31, during the 17-second wait: the fade ends
and the reset fires at instant 41, but the mix timer is still queued. -/
def c2Stopped : Session := handleStop 31 c2Released

/-- The app state after both pending timers have fired in order. -/
def c2Final : AppState := runTimers c2Stopped.st c2Stopped.timers

/-! ## Configuration value lemmas -/

lemma loopEndTime_val : CONFIG.loopEndTime = 7 := rfl

lemma vocalStartTime_val : CONFIG.vocalStartTime = 17 := rfl

lemma gaugeSpeed_val : CONFIG.gaugeSpeed = 0.15 := rfl

lemma vocalGaugeSpeed_val : CONFIG.vocalGaugeSpeed = 0.15 := rfl

lemma decayRate_val : CONFIG.decayRate = 0.5 := rfl

lemma fadeOutTime_val : CONFIG.fadeOutTime = 10 := rfl

/-! Helper unfolding lemmas for the band projections. -/

lemma bassVol_def (g : ℚ) : bassVol g = if g ≤ 20 then g / 20 else 1 := by
  unfold bassVol stemTargets
  split_ifs <;> rfl

lemma drumVol_def (g : ℚ) :
    drumVol g = if g ≤ 20 then 0 else if g ≤ 40 then (g - 20) / 20 else 1 := by
  unfold drumVol stemTargets
  split_ifs <;> rfl

lemma vocalVol_def (g : ℚ) :
    vocalVol g = if g ≤ 20 then 0 else if g ≤ 40 then 0 else (g - 40) / 60 := by
  unfold vocalVol stemTargets
  split_ifs <;> rfl

/-! ## Gauge invariants -/

lemma clampGauge_mem (g : ℚ) : 0 ≤ clampGauge g ∧ clampGauge g ≤ 100 := by
  unfold clampGauge
  split_ifs <;> constructor <;> linarith

lemma gaugeTick_mem (va l : Bool) (g : ℚ) : 0 ≤ gaugeTick va l g ∧ gaugeTick va l g ≤ 100 :=
  clampGauge_mem _

lemma runGauge_mem (inputs : List (Bool × Bool)) (g0 : ℚ) (h0 : 0 ≤ g0) (h1 : g0 ≤ 100) :
    0 ≤ runGauge inputs g0 ∧ runGauge inputs g0 ≤ 100 := by
  induction inputs generalizing g0 with
  | nil => exact ⟨h0, h1⟩
  | cons p ps ih =>
      have hb := gaugeTick_mem p.1 p.2 g0
      simpa [runGauge] using ih (gaugeTick p.1 p.2 g0) hb.1 hb.2

/-- C3: starting from gauge = 0, for every sequence of ticks with any stage
flag and any leaning input, the per-tick update (charge by the stage's rate or
decay, then clamp) keeps the gauge in [0,100]. -/
theorem gauge_always_bounded (inputs : List (Bool × Bool)) :
    0 ≤ runGauge inputs 0 ∧ runGauge inputs 0 ≤ 100 :=
  runGauge_mem inputs 0 (le_refl 0) (by norm_num)

/-! ## Gauge saturation tick count -/

lemma clampGauge_of_nonneg (g : ℚ) (h : 0 ≤ g) : clampGauge g = min 100 g := by
  unfold clampGauge
  rw [if_neg (not_lt.mpr h)]
  rcases le_or_lt g 100 with h2 | h2
  · rw [if_neg (by linarith), min_eq_right h2]
  · rw [if_pos (by linarith), min_eq_left (by linarith)]

lemma gaugeAfterActive_closed (n : ℕ) : gaugeAfterActive n = min 100 ((n : ℚ) * 0.15) := by
  induction n with
  | zero => norm_num [gaugeAfterActive]
  | succ n ih =>
      have hx : (0:ℚ) ≤ (n : ℚ) * 0.15 := by positivity
      have hstep : gaugeAfterActive (n + 1) = clampGauge (min 100 ((n : ℚ) * 0.15) + 0.15) := by
        rw [gaugeAfterActive, ih]
        norm_num [gaugeTick, CONFIG]
      rw [hstep, clampGauge_of_nonneg _ (by positivity)]
      push_cast
      rcases le_or_lt ((n:ℚ) * 0.15) 100 with h1 | h1
      · rw [min_eq_right h1]
        congr 1
        ring
      · rw [min_eq_left (le_of_lt h1), min_eq_left (by norm_num),
            min_eq_left (by nlinarith)]

/-- C9: with the input held active every tick from gauge 0 and charge rate
0.15, the gauge first reaches 100 on tick ceil(100/0.15) = 667; on every
earlier tick, tick 666 included, it is strictly below 100. -/
theorem gauge_saturates_at_tick_667 :
    gaugeAfterActive 667 = 100 ∧ ∀ k : ℕ, k ≤ 666 → gaugeAfterActive k < 100 := by
  constructor
  · rw [gaugeAfterActive_closed]
    rw [min_eq_left (by norm_num)]
  · intro k hk
    rw [gaugeAfterActive_closed]
    have hk2 : (k:ℚ) ≤ 666 := by exact_mod_cast hk
    calc min 100 ((k:ℚ) * 0.15) ≤ (k:ℚ) * 0.15 := min_le_right _ _
      _ ≤ 666 * 0.15 := by linarith
      _ < 100 := by norm_num

/-- C9 witness: tick 666 is still strictly below 100. -/
theorem gauge_saturates_at_tick_667_witness : gaugeAfterActive 666 < 100 :=
  gauge_saturates_at_tick_667.2 666 (by norm_num)

/-! ## Mixer band functions -/

/-- C4: in stage MixActive, for every gauge value in [0,100] the nested-if
stem gain targets of the source equal the spec's clamped band functions, and
the band boundaries behave as stated: at 20 bass = 1 and drums = 0, at 40
drums = 1 and vocals = 0, at 100 vocals = 1. -/
theorem mixer_bands_match_spec (g : ℚ) (h0 : 0 ≤ g) (h1 : g ≤ 100) :
    bassVol g = specBass g ∧ drumVol g = specDrums g ∧ vocalVol g = specVocals g ∧
    bassVol 20 = 1 ∧ drumVol 20 = 0 ∧ drumVol 40 = 1 ∧ vocalVol 40 = 0 ∧ vocalVol 100 = 1 := by
  refine ⟨?_, ?_, ?_, ?_, ?_, ?_, ?_, ?_⟩
  · simp only [bassVol_def, specBass, clamp01]
    split_ifs <;> first | rfl | linarith
  · simp only [drumVol_def, specDrums, clamp01]
    split_ifs <;> first | rfl | linarith
  · simp only [vocalVol_def, specVocals, clamp01]
    split_ifs <;> first | rfl | linarith
  · norm_num [bassVol_def]
  · norm_num [drumVol_def]
  · norm_num [drumVol_def]
  · norm_num [vocalVol_def]
  · norm_num [vocalVol_def]

/-- C4 witness: instance at gauge 50. -/
theorem mixer_bands_match_spec_witness :
    bassVol 50 = specBass 50 ∧ vocalVol 50 = specVocals 50 :=
  ⟨(mixer_bands_match_spec 50 (by norm_num) (by norm_num)).1,
   (mixer_bands_match_spec 50 (by norm_num) (by norm_num)).2.2.1⟩

/-- C10: for gauge values in [0,100] the three stem targets are each in
[0,1], the layering order bass >= drums >= vocals holds, and each target is
monotone non-decreasing in the gauge. -/
theorem mixer_bands_ordered_monotone (g g' : ℚ) (h0 : 0 ≤ g) (h1 : g ≤ 100)
    (h0' : 0 ≤ g') (h1' : g' ≤ 100) (hgg : g ≤ g') :
    0 ≤ bassVol g ∧ bassVol g ≤ 1 ∧ 0 ≤ drumVol g ∧ drumVol g ≤ 1 ∧
    0 ≤ vocalVol g ∧ vocalVol g ≤ 1 ∧
    drumVol g ≤ bassVol g ∧ vocalVol g ≤ drumVol g ∧
    bassVol g ≤ bassVol g' ∧ drumVol g ≤ drumVol g' ∧ vocalVol g ≤ vocalVol g' := by
  refine ⟨?_, ?_, ?_, ?_, ?_, ?_, ?_, ?_, ?_, ?_, ?_⟩ <;>
    simp only [bassVol_def, drumVol_def, vocalVol_def] <;> split_ifs <;> linarith

/-- C10 witness: instance at the pair (30, 70). -/
theorem mixer_bands_ordered_monotone_witness : drumVol 30 ≤ drumVol 70 :=
  (mixer_bands_ordered_monotone 30 70 (by norm_num) (by norm_num) (by norm_num)
    (by norm_num) (by norm_num)).2.2.2.2.2.2.2.2.2.1

/-! ## Release-loop timing -/

/-- C1 (amended): when the gauge saturates during Syncing, releaseLoop
computes `currentLoopEnd = startTime + (floor((now - startTime)/loopEndTime) + 1) * loopEndTime`,
a non-negative integer multiple of `loopEndTime` past the anchor and always
at or after the call instant; the mix start is that instant plus the 17s
vocal start delay, and the wall-clock delay `max(0, mixStart - now)` is the
plain difference; the spec's ceil formula agrees with the code exactly when
the elapsed time is not an integer multiple of `loopEndTime`. -/
theorem releaseLoop_timing (startTime now : ℚ) (h : startTime ≤ now) :
    (∃ k : ℤ, 0 ≤ k ∧ currentLoopEnd startTime now = startTime + (k : ℚ) * CONFIG.loopEndTime) ∧
    now ≤ currentLoopEnd startTime now ∧
    musicStartTime startTime now = currentLoopEnd startTime now + 17 ∧
    max 0 (musicStartTime startTime now - now) = musicStartTime startTime now - now ∧
    ((¬ ∃ k : ℤ, now - startTime = (k : ℚ) * CONFIG.loopEndTime) →
      currentLoopEnd startTime now = specLoopReleaseInstant startTime now) ∧
    ∀ (cm : Option MusicBuffers) (sess : Session),
      (releaseLoop cm now sess).st.isLooping = false := by
  have hL : CONFIG.loopEndTime = 7 := rfl
  set x : ℚ := (now - startTime) / CONFIG.loopEndTime with hxdef
  have hx0 : 0 ≤ x := by
    rw [hxdef, hL]
    exact div_nonneg (by linarith) (by norm_num)
  have hfl : ((⌊x⌋ : ℤ) : ℚ) ≤ x := Int.floor_le x
  have hfl1 : x < ((⌊x⌋ : ℤ) : ℚ) + 1 := Int.lt_floor_add_one x
  have hx7 : x * 7 = now - startTime := by
    rw [hxdef, hL]
    field_simp
  have hCLE : currentLoopEnd startTime now = startTime + (((⌊x⌋ : ℤ) : ℚ) + 1) * 7 := by
    unfold currentLoopEnd
    rw [← hxdef, hL]
    push_cast
    ring
  have hnow_lt : now < currentLoopEnd startTime now := by
    rw [hCLE]
    nlinarith
  refine ⟨⟨⌊x⌋ + 1, ?_, ?_⟩, le_of_lt hnow_lt, rfl, ?_, ?_, fun _ _ => rfl⟩
  · have : (0 : ℤ) ≤ ⌊x⌋ := Int.floor_nonneg.mpr hx0
    omega
  · rw [hCLE, hL]
    push_cast
    ring
  · rw [max_eq_right]
    have : musicStartTime startTime now = currentLoopEnd startTime now + 17 := rfl
    linarith
  · intro hnm
    have hne : x ≠ ((⌊x⌋ : ℤ) : ℚ) := by
      intro heq
      apply hnm
      refine ⟨⌊x⌋, ?_⟩
      rw [hL, ← hx7]
      exact congrArg (· * 7) heq
    have hlt : ((⌊x⌋ : ℤ) : ℚ) < x := lt_of_le_of_ne hfl (Ne.symm hne)
    have hceil : ⌈x⌉ = ⌊x⌋ + 1 := by
      refine le_antisymm (Int.ceil_le.mpr ?_) ?_
      · push_cast
        linarith
      · have h2 : ⌊x⌋ < ⌈x⌉ := Int.lt_ceil.mpr hlt
        omega
    unfold currentLoopEnd specLoopReleaseInstant
    rw [← hxdef, hceil]

/-- C1 counterexample: at anchor 0 and call instant 7 (elapsed time exactly
one loop length) the code's loop-release instant is 14 while the spec's ceil
formula yields 7. -/
theorem releaseLoop_ceil_formula_fails :
    currentLoopEnd 0 7 = 14 ∧ specLoopReleaseInstant 0 7 = 7 ∧
    currentLoopEnd 0 7 ≠ specLoopReleaseInstant 0 7 := by
  have h1 : ((7:ℚ) - 0) / CONFIG.loopEndTime = 1 := by
    rw [loopEndTime_val]
    norm_num
  have hc : currentLoopEnd 0 7 = 14 := by
    unfold currentLoopEnd
    rw [h1, loopEndTime_val, Int.floor_one]
    norm_num
  have hs : specLoopReleaseInstant 0 7 = 7 := by
    unfold specLoopReleaseInstant
    rw [h1, loopEndTime_val, Int.ceil_one]
    norm_num
  refine ⟨hc, hs, ?_⟩
  rw [hc, hs]
  norm_num

/-- C1 witness: instance of the amended theorem at anchor 0, call instant 30
(elapsed 30 is not a multiple of 7, so the code instant and the spec's ceil
formula agree, and the release instant 35 is after the call). -/
theorem releaseLoop_timing_witness :
    (30:ℚ) ≤ currentLoopEnd 0 30 ∧ currentLoopEnd 0 30 = specLoopReleaseInstant 0 30 := by
  have h := releaseLoop_timing 0 30 (by norm_num)
  refine ⟨by simpa using h.2.1, h.2.2.2.2.1 ?_⟩
  rintro ⟨k, hk⟩
  rw [loopEndTime_val] at hk
  norm_num at hk
  have h4 : (4:ℤ) < k := by
    have : (4:ℚ) < (k:ℚ) := by linarith
    exact_mod_cast this
  have h5 : k < (5:ℤ) := by
    have : (k:ℚ) < (5:ℚ) := by linarith
    exact_mod_cast this
  omega

/-! ## MixActive tick gain commands -/

/-- C8 (amended): on every MixActive tick the current variant drives only the
clock gain toward 1.0 (and the three stem gains toward their band targets),
each via `setTargetAtTime` with time constant 0.05; the accompaniment gain is
not driven by the tick loop (it was set to full once at mix activation). The
older variant additionally drives the accompaniment toward 1.0 each tick. -/
theorem mixActive_tick_commands (g : ℚ) :
    gameLoopGainCmds false true g =
      [⟨Channel.clock, 1, 0.05⟩, ⟨Channel.bass, bassVol g, 0.05⟩,
       ⟨Channel.drums, drumVol g, 0.05⟩, ⟨Channel.vocals, vocalVol g, 0.05⟩] ∧
    Channel.other ∉ (gameLoopGainCmds false true g).map TargetCmd.channel ∧
    (∃ rest, legacyGameLoopGainCmds false true g =
      ⟨Channel.clock, 1, 0.05⟩ :: ⟨Channel.other, 1, 0.05⟩ :: rest) := by
  refine ⟨rfl, ?_, ⟨_, rfl⟩⟩
  simp [gameLoopGainCmds]

/-- C8 counterexample: at gauge 50 on a MixActive tick, the current variant
issues no command for the accompaniment channel, so the accompaniment gain is
not driven toward 1.0 by the tick loop. -/
theorem mixActive_tick_no_accompaniment_cmd :
    Channel.other ∉ (gameLoopGainCmds false true 50).map TargetCmd.channel ∧
    Channel.other ∈ (legacyGameLoopGainCmds false true 50).map TargetCmd.channel := by
  constructor
  · simp [gameLoopGainCmds]
  · simp [legacyGameLoopGainCmds]

/-! ## Mix activation -/

/-- C5: when the stem buffers are loaded, scheduleMusicAt17s starts every
available stem source at exactly the computed mix-start instant on the audio
timeline, sets the accompaniment gain to full at that instant, and the
deferred callback — scheduled at a wall-clock delay of max(0, mixStart - now)
— resets the gauge to 0, sets vocalActive, and moves the stage to MixActive. -/
theorem mix_activation (m : MusicBuffers) (now musicStartAt : ℚ) (s : AppState)
    (hother : m.other = true) :
    (scheduleMusicAt17s (some m) now musicStartAt).errorMessage = none ∧
    (scheduleMusicAt17s (some m) now musicStartAt).otherStart = some musicStartAt ∧
    (m.bass = true →
      (scheduleMusicAt17s (some m) now musicStartAt).bassStart = some musicStartAt) ∧
    (m.drums = true →
      (scheduleMusicAt17s (some m) now musicStartAt).drumsStart = some musicStartAt) ∧
    (m.vocals = true →
      (scheduleMusicAt17s (some m) now musicStartAt).vocalsStart = some musicStartAt) ∧
    (scheduleMusicAt17s (some m) now musicStartAt).otherGainSet = some (1, musicStartAt) ∧
    (scheduleMusicAt17s (some m) now musicStartAt).timer =
      some ⟨now + max 0 (musicStartAt - now), TimerAction.mixActivate⟩ ∧
    (applyTimerAction TimerAction.mixActivate s).gauge = 0 ∧
    (applyTimerAction TimerAction.mixActivate s).vocalActive = true ∧
    (applyTimerAction TimerAction.mixActivate s).stage = 2 := by
  refine ⟨?_, ?_, ?_, ?_, ?_, ?_, ?_, rfl, rfl, rfl⟩ <;>
    simp [scheduleMusicAt17s, createSrcStart, hother]

/-- C5 witness: instance with the drums stem missing, scheduled at instant 24
from call instant 10. -/
theorem mix_activation_witness :
    (scheduleMusicAt17s (some ⟨true, true, false, true⟩) 10 24).otherStart = some 24 ∧
    (scheduleMusicAt17s (some ⟨true, true, false, true⟩) 10 24).timer =
      some ⟨24, TimerAction.mixActivate⟩ := by
  have h := mix_activation ⟨true, true, false, true⟩ 10 24
    ⟨0, 0, true, false, 1, "SYNC TIME (HOLD SPACE)", true⟩ rfl
  refine ⟨h.2.1, ?_⟩
  rw [h.2.2.2.2.2.2.1]
  norm_num

/-! ## Stop: fade-out ramps and deferred reset -/

/-- C7: handleStop ramps each of the five live gains linearly from its
current value to 0 over fadeOutTime = 10 s, and its deferred callback, fired
only after that duration, resets the session: gauge 0, visual gauge 0, stage
Idle (0), vocalActive off, not ready, status DISCONNECTED. -/
theorem stop_fades_then_resets (now vClock vOther vBass vDrums vVocals t : ℚ) (s : AppState) :
    (∀ r ∈ handleStopRamps now vClock vOther vBass vDrums vVocals,
        rampValue r now = r.startVal ∧
        rampValue r (now + CONFIG.fadeOutTime) = 0 ∧
        rampValue r t = r.startVal * (1 - (t - now) / CONFIG.fadeOutTime)) ∧
    (handleStopRamps now vClock vOther vBass vDrums vVocals).map RampCmd.startVal =
      [vClock, vOther, vBass, vDrums, vVocals] ∧
    CONFIG.fadeOutTime = 10 ∧
    (handleStopTimer now).fireAt = now + CONFIG.fadeOutTime ∧
    (handleStopTimer now).action = TimerAction.stopReset ∧
    (applyTimerAction TimerAction.stopReset s).gauge = 0 ∧
    (applyTimerAction TimerAction.stopReset s).visualGauge = 0 ∧
    (applyTimerAction TimerAction.stopReset s).stage = 0 ∧
    (applyTimerAction TimerAction.stopReset s).vocalActive = false ∧
    (applyTimerAction TimerAction.stopReset s).isReady = false ∧
    (applyTimerAction TimerAction.stopReset s).statusText = "DISCONNECTED" := by
  refine ⟨?_, rfl, rfl, rfl, rfl, rfl, rfl, rfl, rfl, rfl, rfl⟩
  intro r hr
  have hval : ∀ v : ℚ, rampValue (fadeOutRamp now v) now = v ∧
      rampValue (fadeOutRamp now v) (now + CONFIG.fadeOutTime) = 0 ∧
      rampValue (fadeOutRamp now v) t = v * (1 - (t - now) / CONFIG.fadeOutTime) := by
    intro v
    rw [fadeOutTime_val]
    refine ⟨?_, ?_, ?_⟩ <;>
      simp [rampValue, fadeOutRamp, fadeOutTime_val] <;> ring
  simp only [handleStopRamps, List.mem_cons, List.not_mem_nil, or_false] at hr
  rcases hr with rfl | rfl | rfl | rfl | rfl <;> exact hval _

/-- C7 witness: the clock-gain ramp started at instant 5 from value 1 reaches
0 at instant 15, and the deferred reset zeroes the gauge. -/
theorem stop_fades_then_resets_witness :
    rampValue (fadeOutRamp 5 1) (5 + CONFIG.fadeOutTime) = 0 ∧
    (applyTimerAction TimerAction.stopReset ⟨60, 1, false, true, 2, "MUSIC ACTIVE", true⟩).gauge
      = 0 := by
  have h := stop_fades_then_resets 5 1 1 1 0 0 7 ⟨60, 1, false, true, 2, "MUSIC ACTIVE", true⟩
  exact ⟨(h.1 (fadeOutRamp 5 1) (by simp [handleStopRamps])).2.1, h.2.2.2.2.2.1⟩

/-! ## Session scenarios -/

lemma scheduleMusicAt17s_notReady (cm : Option MusicBuffers) (now ms : ℚ)
    (h : musicNotReady cm) :
    scheduleMusicAt17s cm now ms =
      { errorMessage := some "Failed to load music", otherStart := none, bassStart := none,
        drumsStart := none, vocalsStart := none, otherGainSet := none, timer := none } := by
  cases cm with
  | none => rfl
  | some m =>
      have hm : m.other = false := h
      simp [scheduleMusicAt17s, hm]

lemma releaseLoop_notReady (cm : Option MusicBuffers) (now : ℚ) (sess : Session)
    (h : musicNotReady cm) :
    releaseLoop cm now sess =
      { sess with
        st := { sess.st with isLooping := false, statusText := "SYNC COMPLETE..." }
        errorMessage := some "Failed to load music" } := by
  unfold releaseLoop
  rw [scheduleMusicAt17s_notReady cm now _ h]

lemma releaseLoop_ready (m : MusicBuffers) (now : ℚ) (sess : Session) (hm : m.other = true) :
    releaseLoop (some m) now sess =
      { sess with
        st := { sess.st with isLooping := false, statusText := "SYNC COMPLETE..." }
        timers := insertTimer
          ⟨now + max 0 (musicStartTime sess.startTime now - now), TimerAction.mixActivate⟩
          sess.timers } := by
  unfold releaseLoop
  simp [scheduleMusicAt17s, hm]

lemma gameLoopTick_notLooping (cm : Option MusicBuffers) (l : Bool) (now : ℚ) (s : Session)
    (h : s.st.isLooping = false) :
    gameLoopTick cm l now s =
      { s with st := { s.st with gauge := gaugeTick s.st.vocalActive l s.st.gauge } } := by
  simp only [gameLoopTick]
  rw [if_neg (by simp [h])]

lemma iterateTicks_notLooping (cm : Option MusicBuffers) (l : Bool) (now : ℚ) (n : ℕ)
    (s : Session) (h : s.st.isLooping = false) :
    (iterateTicks cm l now n s).st.isLooping = false ∧
    (iterateTicks cm l now n s).st.vocalActive = s.st.vocalActive ∧
    (iterateTicks cm l now n s).st.stage = s.st.stage ∧
    (iterateTicks cm l now n s).timers = s.timers ∧
    (iterateTicks cm l now n s).errorMessage = s.errorMessage := by
  induction n generalizing s with
  | zero => exact ⟨h, rfl, rfl, rfl, rfl⟩
  | succ n ih =>
      rw [iterateTicks, gameLoopTick_notLooping cm l now s h]
      exact ih _ h

/-! ## C6: mix activation attempted before the stems are buffered -/

/-- C6 (amended): if releaseLoop runs while the selected song's stems are not
yet buffered, the failure is surfaced as an error message, the stage, gauge,
anchor and timer queue are untouched and nothing is scheduled — but no retry
mechanism exists: whatever buffers load later and whatever input follows, no
later tick ever schedules the mix or activates it, because the loop-release
trigger is gated on `isLooping`, which releaseLoop already cleared. -/
theorem release_without_buffers (cm : Option MusicBuffers) (now : ℚ) (sess : Session)
    (hcm : musicNotReady cm) (hva : sess.st.vocalActive = false) :
    (releaseLoop cm now sess).errorMessage = some "Failed to load music" ∧
    (releaseLoop cm now sess).st.gauge = sess.st.gauge ∧
    (releaseLoop cm now sess).st.stage = sess.st.stage ∧
    (releaseLoop cm now sess).startTime = sess.startTime ∧
    (releaseLoop cm now sess).timers = sess.timers ∧
    ∀ (cm2 : Option MusicBuffers) (l : Bool) (now2 : ℚ) (n : ℕ),
      (iterateTicks cm2 l now2 n (releaseLoop cm now sess)).st.vocalActive = false ∧
      (iterateTicks cm2 l now2 n (releaseLoop cm now sess)).st.stage = sess.st.stage ∧
      (iterateTicks cm2 l now2 n (releaseLoop cm now sess)).timers = sess.timers := by
  rw [releaseLoop_notReady cm now sess hcm]
  refine ⟨rfl, rfl, rfl, rfl, rfl, ?_⟩
  intro cm2 l now2 n
  have h := iterateTicks_notLooping cm2 l now2 n
    { sess with
      st := { sess.st with isLooping := false, statusText := "SYNC COMPLETE..." }
      errorMessage := some "Failed to load music" } rfl
  refine ⟨?_, h.2.2.1, h.2.2.2.1⟩
  rw [h.2.1]
  exact hva

/-- C6 witness: instance of the amended theorem with no buffers at all. -/
theorem release_without_buffers_witness :
    (releaseLoop none 30 satSession).errorMessage = some "Failed to load music" ∧
    (iterateTicks (some allBuffers) true 30 5 (releaseLoop none 30 satSession)).st.vocalActive
      = false := by
  have h := release_without_buffers none 30 satSession trivial rfl
  exact ⟨h.1, (h.2.2.2.2.2 (some allBuffers) true 30 5).1⟩

/-- C6 counterexample: after the TrackNotLoaded failure, the buffers finish
loading and the user keeps leaning, yet 10000 further ticks never activate
the mix and no event is ever scheduled — there is no retry, contradicting
"a retry after loading completes succeeds". -/
theorem no_retry_after_load :
    c6Failed.errorMessage = some "Failed to load music" ∧
    c6Failed.timers = [] ∧
    (iterateTicks (some allBuffers) true 30 10000 c6Failed).st.vocalActive = false ∧
    (iterateTicks (some allBuffers) true 30 10000 c6Failed).st.stage = 1 ∧
    (iterateTicks (some allBuffers) true 30 10000 c6Failed).timers = [] := by
  have h := iterateTicks_notLooping (some allBuffers) true 30 10000 c6Failed rfl
  exact ⟨rfl, rfl, h.2.1, h.2.2.1, h.2.2.2.1⟩

/-! ## C2: stop does not cancel the pending mix-activation timer -/

lemma musicStartTime_0_30 : musicStartTime 0 30 = 52 := by
  have hf : ⌊((30:ℚ) - 0) / CONFIG.loopEndTime⌋ = 4 := by
    rw [loopEndTime_val]
    rw [Int.floor_eq_iff]
    constructor <;> norm_num
  unfold musicStartTime currentLoopEnd
  rw [hf, loopEndTime_val, vocalStartTime_val]
  norm_num

lemma c2Released_timers : c2Released.timers = [⟨52, TimerAction.mixActivate⟩] := by
  unfold c2Released
  rw [releaseLoop_ready allBuffers 30 satSession rfl]
  show insertTimer ⟨30 + max 0 (musicStartTime 0 30 - 30), TimerAction.mixActivate⟩ [] = _
  rw [musicStartTime_0_30]
  norm_num [insertTimer]

lemma c2Stopped_timers :
    c2Stopped.timers = [⟨41, TimerAction.stopReset⟩, ⟨52, TimerAction.mixActivate⟩] := by
  show insertTimer (handleStopTimer 31) c2Released.timers = _
  rw [c2Released_timers]
  unfold handleStopTimer insertTimer
  rw [fadeOutTime_val, if_neg (by norm_num)]
  norm_num

/-- C2: with the mix activation pending at instant 52, stop() at instant 31
leaves that timer in the queue (the source never stores or clears the timeout
id); after the stop reset fires at 41, the dangling mix event still fires at
52, setting stage = MixActive and vocalActive and re-zeroing the gauge on the
supposedly reset session — the claim that the event is cancelled and the
stage never becomes MixActive again fails. -/
theorem dangling_mix_timer_fires_after_stop :
    c2Stopped.timers = [⟨41, TimerAction.stopReset⟩, ⟨52, TimerAction.mixActivate⟩] ∧
    c2Final.stage = 2 ∧
    c2Final.vocalActive = true ∧
    c2Final.statusText = "MUSIC ACTIVE" ∧
    c2Final.isReady = false := by
  have hfinal : c2Final = applyTimerAction TimerAction.mixActivate
      (applyTimerAction TimerAction.stopReset c2Stopped.st) := by
    show runTimers c2Stopped.st c2Stopped.timers = _
    rw [c2Stopped_timers]
    rfl
  refine ⟨c2Stopped_timers, ?_, ?_, ?_, ?_⟩ <;> rw [hfinal] <;> rfl

end LovePods
